import Mathlib

/-!
Shallow embedding of the trivia API's participation admission, finalization,
group CRUD and ranking logic (src/app), together with theorems about the
behaviour of those operations.

Machine conventions: database ids, attempt numbers and `max_intentos` are
`Int` (Postgres integers); timestamps and durations are `Int` seconds;
enum-like strings become inductive types; Python dicts with optional keys
become structures with `Option` fields; a raised exception becomes the
`Except.error` branch; a transaction is a function returning the resulting
database state together with the outcome (on an error path the state is the
rolled-back, i.e. unchanged, input state).
-/

namespace TriviaApi

/-- Error raised by handlers and services: `fastapi.HTTPException` carries a
status code and a detail string. -/
structure HTTPException where
  statusCode : Int
  detail : String
deriving DecidableEq, Repr

/-- A Python exception escaping a service: either an `HTTPException` or any
other exception (carrying its message), as distinguished by the routers'
catch-all clauses. -/
inductive ServiceError
  | http (statusCode : Int) (detail : String)
  | exn (msg : String)
deriving DecidableEq, Repr

/-- What Python's `str(e)` yields for the two error shapes: FastAPI's
`HTTPException.__str__` prints "code: detail"; a plain exception prints its
message. -/
def pyStr : ServiceError → String
  | .http c d => toString c ++ ": " ++ d
  | .exn m => m

/-- Attempt state enum from `app/models/participacion.py`
(`EstadoParticipacion`). -/
inductive EstadoParticipacion
  | pendiente
  | finalizado
deriving DecidableEq, Repr

/-- One raw answer dict as handled by `finalizar_participacion`
(`list[dict]`): keys looked up with `.get` become `Option` fields. -/
structure RespuestaDict where
  id_pregunta : Int
  respuesta_seleccionada : Option Int := none
  tipo_pregunta : Option String := none
  respuesta_abierta : Option String := none
deriving DecidableEq, Repr

/-- The projected dict appended to `respuestas_abiertas` by
`finalizar_participacion`: only `id_pregunta` and `respuesta_abierta`. -/
structure RespuestaAbiertaDict where
  id_pregunta : Int
  respuesta_abierta : Option String
deriving DecidableEq, Repr

/-- Row of the `trivia.participaciones` table. `numero_intento` is read
only by raw SQL (the stored engine function and the `SELECT numero_intento`
in `gestionar_participacion`), which bypasses the ORM and reaches the
actual table; the ORM mapped class in `app/models/participacion.py`
declares neither a `numero_intento` nor a `respuestas_abiertas` column,
which is why ORM-level accesses to those names raise (see
`ranking_usuarios` and `finalizar_participacion`). -/
structure ParticipacionRow where
  id_participacion : Int
  id_usuario : Int
  id_grupo : Int
  numero_intento : Int
  respuestas_usuario : List RespuestaDict
  estado : EstadoParticipacion
  started_at : Int
  finished_at : Option Int
  tiempo_total : Option Int
deriving DecidableEq, Repr

/-- Row of `trivia.usuarios` (`app/models/usuario.py`). -/
structure Usuario where
  id_usuario : Int
  cedula : String
  nombre : String
deriving DecidableEq, Repr

/-- Row of `trivia.grupos` (`app/models/grupo.py`), timestamps in seconds,
`cooldown` interval in seconds. -/
structure Grupo where
  id_grupo : Int
  id_evento : Int
  nombre_grupo : String
  fecha_inicio : Int
  fecha_cierre : Int
  max_intentos : Int
  cooldown : Int
deriving DecidableEq, Repr

/-- The check constraints declared in `Grupo.__table_args__`:
`fecha_cierre > fecha_inicio`, `max_intentos > 0`,
`cooldown >= interval '0 seconds'`. -/
def grupoCheckConstraints (g : Grupo) : Prop :=
  g.fecha_inicio < g.fecha_cierre ∧ 0 < g.max_intentos ∧ 0 ≤ g.cooldown

instance (g : Grupo) : Decidable (grupoCheckConstraints g) := by
  unfold grupoCheckConstraints; infer_instance

/-- The unique constraint `uq_usuario_grupo` declared in
`Participacion.__table_args__`: no two rows may share
(`id_usuario`, `id_grupo`). -/
def uqUsuarioGrupo : List ParticipacionRow → Bool
  | [] => true
  | p :: rest =>
    rest.all (fun q => !(p.id_usuario == q.id_usuario && p.id_grupo == q.id_grupo))
      && uqUsuarioGrupo rest

/-- The constraint as the spec words it: uniqueness of
(user, group, attempt_number) triples. Written from the spec's words, for
comparison with `uqUsuarioGrupo`, the constraint the source declares. -/
def uqUsuarioGrupoIntentoSpec : List ParticipacionRow → Bool
  | [] => true
  | p :: rest =>
    rest.all (fun q =>
      !(p.id_usuario == q.id_usuario && p.id_grupo == q.id_grupo
        && p.numero_intento == q.numero_intento))
      && uqUsuarioGrupoIntentoSpec rest

/-- The full mutable store: the three tables the participation flow touches. -/
structure DBState where
  grupos : List Grupo
  usuarios : List Usuario
  participaciones : List ParticipacionRow
deriving DecidableEq, Repr

/-- Primary-key lookup of a group (`crud_grupos.get_grupo`). -/
def get_grupo (db : DBState) (id_grupo : Int) : Option Grupo :=
  db.grupos.find? (fun g => g.id_grupo == id_grupo)

/-- The name `get_grupo_by_id` that `services/participacion.py` imports from
`crud_grupos`; no function of that name is defined there, so it is taken to
denote the primary-key group lookup that module does define (`get_grupo`),
which is how every caller uses it. -/
def get_grupo_by_id (db : DBState) (id_grupo : Int) : Option Grupo :=
  get_grupo db id_grupo

/-- Result row of the stored function
`trivia.gestionar_participacion(nombre, cedula, grupo_id)` as read by the
service: action, attempt snapshot, and remaining cooldown; `createdNew`
records whether the call inserted a fresh attempt row. -/
structure EngineResult where
  action : String
  attempt : Option ParticipacionRow
  createdNew : Bool
  remaining : Int
deriving DecidableEq, Repr

/-- A fresh pending attempt row as the engine creates one: given number,
started now, no answers, no finish data. -/
def newAttempt (freshId uid gid numero : Int) (now : Int) : ParticipacionRow :=
  { id_participacion := freshId
    id_usuario := uid
    id_grupo := gid
    numero_intento := numero
    respuestas_usuario := []
    estado := .pendiente
    started_at := now
    finished_at := none
    tiempo_total := none }

/-- Modelled from the spec: the decision step of the admission engine. The
engine is the PL/pgSQL function `trivia.gestionar_participacion` loaded from
`app/sql/create_function_gestionar_participacion.sql`, a file that is not
part of the source tree (only `init_db.py` names it and
`services/participacion.py` invokes it); this definition follows the
decision table of spec section 4.1 step 3: no attempt yields a first pending
attempt; a pending latest attempt is resumed; a finished latest attempt
below `max_intentos` starts the next attempt after the cooldown has elapsed
and otherwise waits, reporting the remaining cooldown; a finished latest
attempt at `max_intentos` yields action "finished". -/
def resolve_or_start_attempt (latest : Option ParticipacionRow)
    (uid gid : Int) (maxIntentos cooldown now freshId : Int) : EngineResult :=
  match latest with
  | none =>
    { action := "start", attempt := some (newAttempt freshId uid gid 1 now),
      createdNew := true, remaining := 0 }
  | some a =>
    if a.estado = .pendiente then
      { action := "resume", attempt := some a, createdNew := false, remaining := 0 }
    else
      let f := a.finished_at.getD a.started_at
      if a.numero_intento < maxIntentos then
        if f + cooldown ≤ now then
          { action := "start",
            attempt := some (newAttempt freshId uid gid (a.numero_intento + 1) now),
            createdNew := true, remaining := 0 }
        else
          { action := "wait", attempt := some a, createdNew := false,
            remaining := f + cooldown - now }
      else
        { action := "finished", attempt := some a, createdNew := false, remaining := 0 }

/-- Modelled from the spec: the upsert of a user by national id performed by
the stored engine function (spec section 4.1 step 1): create the user if the
cedula is absent, otherwise update the stored name. Returns the updated
users table together with the user's id. -/
def upsert_usuario (db : DBState) (cedula nombre : String) : DBState × Int :=
  match db.usuarios.find? (fun u => u.cedula == cedula) with
  | some u =>
    ({ db with usuarios :=
        db.usuarios.map (fun v => if v.cedula == cedula then { v with nombre := nombre } else v) },
      u.id_usuario)
  | none =>
    let uid := db.usuarios.foldl (fun m u => max m u.id_usuario) 0 + 1
    ({ db with usuarios := db.usuarios ++ [{ id_usuario := uid, cedula := cedula, nombre := nombre }] },
      uid)

/-- The most recent attempt of (user, group), ordered by attempt number
descending (spec section 4.1 step 2). -/
def latestAttempt (db : DBState) (uid gid : Int) : Option ParticipacionRow :=
  (db.participaciones.filter (fun p => p.id_usuario == uid && p.id_grupo == gid)).foldl
    (fun acc p =>
      match acc with
      | none => some p
      | some q => if q.numero_intento ≤ p.numero_intento then some p else some q)
    none

/-- A fresh primary key for `trivia.participaciones`. -/
def freshPartId (db : DBState) : Int :=
  db.participaciones.foldl (fun m p => max m p.id_participacion) 0 + 1

/-- The dictionary returned by the service `gestionar_participacion`
(src/app/services/participacion.py lines 87 to 96). -/
structure JoinResult where
  action : String
  id_participacion : Int
  numero_intento : Int
  respuestas : List RespuestaDict
  started_at : Int
  finished_at : Option Int
  tiempo_total : Option String
  remaining : String
deriving DecidableEq, Repr

/-- Service `gestionar_participacion` (src/app/services/participacion.py
lines 32 to 99): validate that the group exists (404) and is currently open
(403), then run the stored engine function in one transaction, re-read the
attempt's `numero_intento` (defaulting to 1), commit and return the
snapshot. Error paths roll the transaction back, so they return the input
state unchanged. The engine body itself is spec-modelled (see
`resolve_or_start_attempt`). -/
def gestionar_participacion (db : DBState) (nombre cedula : String)
    (grupo_id : Int) (now : Int) : DBState × Except ServiceError JoinResult :=
  match get_grupo_by_id db grupo_id with
  | none => (db, .error (.http 404 "Grupo no encontrado"))
  | some grupo =>
    if grupo.fecha_inicio ≤ now ∧ now ≤ grupo.fecha_cierre then
      let dbU := (upsert_usuario db cedula nombre).1
      let uid := (upsert_usuario db cedula nombre).2
      let res := resolve_or_start_attempt (latestAttempt dbU uid grupo_id)
        uid grupo_id grupo.max_intentos grupo.cooldown now (freshPartId dbU)
      match res.attempt with
      | none => (db, .error (.http 500 "No se pudo iniciar o recuperar la participación"))
      | some att =>
        let db2 :=
          if res.createdNew then
            { dbU with participaciones := dbU.participaciones ++ [att] }
          else dbU
        let numero :=
          ((db2.participaciones.find? (fun p => p.id_participacion == att.id_participacion)).map
            (fun p => p.numero_intento)).getD 1
        (db2,
          .ok { action := res.action
                id_participacion := att.id_participacion
                numero_intento := numero
                respuestas := att.respuestas_usuario
                started_at := att.started_at
                finished_at := att.finished_at
                tiempo_total :=
                  match att.tiempo_total with
                  | some t => if t ≠ 0 then some (toString t) else none
                  | none => none
                remaining := toString res.remaining })
    else
      (db, .error (.http 403 "El grupo está cerrado o aún no ha iniciado"))

/-- Python `int(...)` on one piece of the split elapsed string: defined on
nonempty all-digit strings, as those are the only inputs the validated
format can produce; anything else raises, yielding `none`. -/
def parseIntStr (s : String) : Option Int :=
  if s.length > 0 && s.data.all Char.isDigit then
    some (s.data.foldl (fun n c => 10 * n + ((c.toNat : Int) - 48)) 0)
  else none

/-- Python's `s.split(sep)` for a one-character separator, on the character
list of the string. -/
def pySplitChar (sep : Char) : List Char → List Char → List (List Char)
  | [], acc => [acc.reverse]
  | c :: rest, acc =>
    if c = sep then acc.reverse :: pySplitChar sep rest []
    else pySplitChar sep rest (c :: acc)

/-- The parse step of `finalizar_participacion` (lines 152 to 154):
`horas, minutos, segundos = map(int, tiempo_total.split(":"))` followed by
`timedelta(hours=..., minutes=..., seconds=...)`, as a duration in seconds.
`none` when the unpacking or an `int` conversion raises. -/
def parse_tiempo (s : String) : Option Int :=
  match (pySplitChar ':' s.data []).map (fun cs => parseIntStr (String.mk cs)) with
  | [some h, some m, some sec] => some (3600 * h + 60 * m + sec)
  | _ => none

/-- One iteration of the answer-partition loop of
`finalizar_participacion`: an answer whose `tipo_pregunta` is "abierta" is
projected to (`id_pregunta`, `respuesta_abierta`) and appended to the open
list; every other answer is appended unchanged to the option list. -/
def separarPaso (acc : List RespuestaDict × List RespuestaAbiertaDict)
    (resp : RespuestaDict) : List RespuestaDict × List RespuestaAbiertaDict :=
  if resp.tipo_pregunta == some "abierta" then
    (acc.1, acc.2 ++ [{ id_pregunta := resp.id_pregunta,
                        respuesta_abierta := resp.respuesta_abierta }])
  else
    (acc.1 ++ [resp], acc.2)

/-- The answer-partition loop of `finalizar_participacion` (lines 156 to
166), starting from two empty lists. -/
def separar_respuestas (resps : List RespuestaDict) :
    List RespuestaDict × List RespuestaAbiertaDict :=
  resps.foldl separarPaso ([], [])

/-- The VALUES clause of the update statement that
`finalizar_participacion` builds (src/app/services/participacion.py lines
169 to 179): the partitioned option answers, the partitioned open answers
in their own field, the parsed duration, `finished_at = now` and state
finished. -/
structure FinalizarUpdateValues where
  respuestas_usuario : List RespuestaDict
  respuestas_abiertas : List RespuestaAbiertaDict
  tiempo_total : Int
  finished_at : Int
  estado : EstadoParticipacion
deriving DecidableEq, Repr

/-- The update values as the source builds them from the submitted answers
and the parsed duration. -/
def finalizar_update_values (respuestas_usuario : List RespuestaDict)
    (duracion now : Int) : FinalizarUpdateValues :=
  { respuestas_usuario := (separar_respuestas respuestas_usuario).1
    respuestas_abiertas := (separar_respuestas respuestas_usuario).2
    tiempo_total := duracion
    finished_at := now
    estado := .finalizado }

/-- Service `finalizar_participacion` (src/app/services/participacion.py
lines 101 to 184): look the attempt up (404 if absent), reject an already
finished attempt (400), parse the elapsed string (a `ValueError` is a
non-HTTP exception), partition the answers and build the update statement
with `finalizar_update_values`. Executing that statement raises: it is an
ORM `update(Participacion)` whose values include `respuestas_abiertas`, a
column the mapped class does not declare (SQLAlchemy's unconsumed-column
error), so the write never happens and every path returns the state
unchanged. -/
def finalizar_participacion (db : DBState) (id_participacion : Int)
    (respuestas_usuario : List RespuestaDict) (tiempo_total : String)
    (now : Int) : DBState × Except ServiceError (String × Int) :=
  match db.participaciones.find? (fun p => p.id_participacion == id_participacion) with
  | none => (db, .error (.http 404 "Participación no encontrada."))
  | some p =>
    if p.estado = .finalizado then
      (db, .error (.http 400 "La participación ya está finalizada."))
    else
      match parse_tiempo tiempo_total with
      | none => (db, .error (.exn "ValueError"))
      | some duracion =>
        match finalizar_update_values respuestas_usuario duracion now with
        | _ => (db, .error (.exn "Unconsumed column names: respuestas_abiertas"))

/-- Python's `str.strip()`: drop whitespace at both ends. -/
def pyStrip (s : String) : String :=
  String.mk
    (((s.data.dropWhile Char.isWhitespace).reverse.dropWhile Char.isWhitespace).reverse)

/-- Upper-case the first character of a word and lower-case the rest. -/
def pyCapitalizar : List Char → List Char
  | [] => []
  | c :: rest => c.toUpper :: rest.map Char.toLower

/-- Python's `str.title()` on space-separated words. -/
def pyTitle (s : String) : String :=
  String.intercalate " "
    ((pySplitChar ' ' s.data []).map (fun cs => String.mk (pyCapitalizar cs)))

/-- The create-group request schema `GrupoCreate`
(src/app/schemas/grupo.py lines 12 to 81). Its data fields are exactly
`id_evento`, `nombre_grupo`, `fecha_inicio` and `fecha_cierre`. -/
structure GrupoCreate where
  id_evento : Int
  nombre_grupo : String
  fecha_inicio : Int
  fecha_cierre : Int
deriving DecidableEq, Repr

/-- Pydantic validation of a `GrupoCreate` payload: `id_evento` must be
positive, `nombre_grupo` nonempty (min_length 1 and nonempty after strip,
then title-cased), and `fecha_cierre` strictly after `fecha_inicio`. -/
def validate_GrupoCreate (id_evento : Int) (nombre_grupo : String)
    (fecha_inicio fecha_cierre : Int) : Except String GrupoCreate :=
  if id_evento ≤ 0 then .error "Input should be greater than 0"
  else if nombre_grupo.length < 1 then .error "String should have at least 1 character"
  else if pyStrip nombre_grupo = "" then .error "El nombre del grupo no puede estar vacío"
  else if fecha_cierre ≤ fecha_inicio then
    .error "La fecha de cierre debe ser posterior a la fecha de inicio"
  else
    .ok { id_evento := id_evento
          nombre_grupo := pyTitle (pyStrip nombre_grupo)
          fecha_inicio := fecha_inicio
          fecha_cierre := fecha_cierre }

/-- The group row built by `crud_grupos.create_grupo` from a validated
request: only event, name and the two dates come from the request;
`max_intentos` and `cooldown` take the column defaults of the model
(`default=1` and `default=timedelta(minutes=5)`, that is 300 seconds). -/
def create_grupo (g : GrupoCreate) (freshId : Int) : Grupo :=
  { id_grupo := freshId
    id_evento := g.id_evento
    nombre_grupo := g.nombre_grupo
    fecha_inicio := g.fecha_inicio
    fecha_cierre := g.fecha_cierre
    max_intentos := 1
    cooldown := 300 }

/-- Handler `actualizar_grupo` (src/app/api/routers/grupos.py lines 144 to
213) combined with `crud_grupos.update_grupo`: 404 when the group is
absent; 400 when both dates are supplied with `fecha_cierre ≤ fecha_inicio`;
400 when a supplied name strips to empty; otherwise the fields present are
applied and the commit enforces the table's check constraints, a violation
surfacing as `IntegrityError`, which the handler reports as the 400
duplicate-name message. -/
def actualizar_grupo (db : DBState) (grupo_id : Int)
    (nombre_grupo : Option String) (fecha_inicio fecha_cierre : Option Int) :
    Except HTTPException Grupo :=
  match get_grupo db grupo_id with
  | none => .error { statusCode := 404, detail := "Grupo no encontrado" }
  | some gr =>
    match fecha_inicio, fecha_cierre with
    | some fi, some fc =>
      if fc ≤ fi then
        .error { statusCode := 400,
                 detail := "La fecha de cierre debe ser posterior a la fecha de inicio" }
      else actualizarAplicar gr nombre_grupo fecha_inicio fecha_cierre
    | _, _ => actualizarAplicar gr nombre_grupo fecha_inicio fecha_cierre
where
  /-- The name-validation, field application and commit part of the
  handler and of `update_grupo`. -/
  actualizarAplicar (gr : Grupo) (nombre : Option String)
      (fi fc : Option Int) : Except HTTPException Grupo :=
    match nombre with
    | some n =>
      if n ≠ "" then
        if pyStrip n = "" then
          .error { statusCode := 400, detail := "El nombre del grupo no puede estar vacío" }
        else
          commitGrupo { gr with nombre_grupo := pyTitle (pyStrip n),
                                fecha_inicio := fi.getD gr.fecha_inicio,
                                fecha_cierre := fc.getD gr.fecha_cierre }
      else
        commitGrupo { gr with nombre_grupo := n,
                              fecha_inicio := fi.getD gr.fecha_inicio,
                              fecha_cierre := fc.getD gr.fecha_cierre }
    | none =>
      commitGrupo { gr with fecha_inicio := fi.getD gr.fecha_inicio,
                            fecha_cierre := fc.getD gr.fecha_cierre }
  /-- Committing the updated row: the database enforces the declared check
  constraints; the handler maps the resulting `IntegrityError` to 400. -/
  commitGrupo (g : Grupo) : Except HTTPException Grupo :=
    if grupoCheckConstraints g then .ok g
    else .error { statusCode := 400,
                  detail := "Ya existe un grupo con ese nombre en el evento" }

/-- One validated answer of the finalize request schema `RespuestaUsuario`
(src/app/schemas/participacion.py lines 44 to 62): a question id and a
selected option order between 1 and 4. -/
structure RespuestaUsuario where
  id_pregunta : Int
  respuesta_seleccionada : Int
deriving DecidableEq, Repr

/-- Pydantic's `model_dump` of a `RespuestaUsuario`: a dict with exactly
the keys `id_pregunta` and `respuesta_seleccionada`. -/
def RespuestaUsuario.model_dump (r : RespuestaUsuario) : RespuestaDict :=
  { id_pregunta := r.id_pregunta
    respuesta_seleccionada := some r.respuesta_seleccionada }

/-- The validated finalize request `FinalizarParticipacionRequest`
(src/app/schemas/participacion.py lines 64 to 95). -/
structure FinalizarParticipacionRequest where
  id_participacion : Int
  respuestas : List RespuestaUsuario
  tiempo : String
deriving DecidableEq, Repr

/-- The field pattern of the request's `tiempo` field, the regular
expression of two digits, a colon, two digits, a colon and two digits,
anchored at both ends. -/
def tiempo_pattern (s : String) : Bool :=
  match s.data with
  | [h1, h2, c1, m1, m2, c2, s1, s2] =>
    h1.isDigit && h2.isDigit && c1 == ':' && m1.isDigit && m2.isDigit && c2 == ':'
      && s1.isDigit && s2.isDigit
  | _ => false

/-- Pydantic validation of a raw finalize payload, per the schema:
`id_participacion` positive, every answer with positive `id_pregunta` and
`respuesta_seleccionada` between 1 and 4, `tiempo` matching the pattern,
and at least one answer. Runs before the route handler is entered. -/
def validate_FinalizarRequest (id_participacion : Int)
    (respuestas : List RespuestaUsuario) (tiempo : String) :
    Except String FinalizarParticipacionRequest :=
  if id_participacion ≤ 0 then .error "Input should be greater than 0"
  else if ¬ (respuestas.all (fun r => 0 < r.id_pregunta
      && 1 ≤ r.respuesta_seleccionada && r.respuesta_seleccionada ≤ 4)) then
    .error "Input should be within the declared bounds"
  else if ¬ tiempo_pattern tiempo then .error "String should match pattern"
  else if respuestas.isEmpty then .error "Debe proporcionar al menos una respuesta"
  else .ok { id_participacion := id_participacion, respuestas := respuestas, tiempo := tiempo }

/-- One row of the User, Attempt, Result, Group join selected by
`ranking_usuarios` (src/app/services/informes.py lines 32 to 52), with the
attempt's `id_grupo` (the group-filter column) alongside the selected
columns. `tiempo_total` is the result row's interval in seconds. There is
no attempt-number column: the mapped class `Participacion` declares none,
so the query's attempt-number filter cannot be built (see
`ranking_usuarios`). -/
structure RankingJoinRow where
  cedula : String
  nombre : String
  nombre_grupo : String
  tiempo_total : Int
  total_preguntas : Int
  respuestas_correctas : Int
  id_grupo : Int
deriving DecidableEq, Repr

/-- The output schema `RankingUsuarioOut` (src/app/schemas/informes.py). -/
structure RankingUsuarioOut where
  ranking : Int
  cedula : String
  nombre : String
  grupo : String
  tiempo_juego : String
  total_preguntas : Int
  respuestas_correctas : Int
deriving DecidableEq, Repr

/-- The ORDER BY of the ranking query: `respuestas_correctas` descending,
then `tiempo_total` ascending. `rankLe a b` holds when `a` may precede `b`. -/
def rankLe (a b : RankingJoinRow) : Prop :=
  b.respuestas_correctas < a.respuestas_correctas ∨
    (a.respuestas_correctas = b.respuestas_correctas ∧ a.tiempo_total ≤ b.tiempo_total)

instance : DecidableRel rankLe := by
  unfold rankLe; infer_instance

instance : IsTotal RankingJoinRow rankLe where
  total a b := by
    unfold rankLe
    rcases lt_trichotomy a.respuestas_correctas b.respuestas_correctas with h | h | h
    · exact Or.inr (Or.inl h)
    · rcases le_total a.tiempo_total b.tiempo_total with h2 | h2
      · exact Or.inl (Or.inr ⟨h, h2⟩)
      · exact Or.inr (Or.inr ⟨h.symm, h2⟩)
    · exact Or.inl (Or.inl h)

instance : IsTrans RankingJoinRow rankLe where
  trans a b c hab hbc := by
    unfold rankLe at *
    rcases hab with h1 | ⟨h1, h1t⟩ <;> rcases hbc with h2 | ⟨h2, h2t⟩
    · exact Or.inl (h2.trans h1)
    · exact Or.inl (h2 ▸ h1)
    · exact Or.inl (h1 ▸ h2)
    · exact Or.inr ⟨h1.trans h2, h1t.trans h2t⟩

/-- The executable part of the ranking query's WHERE clause: the group
filter, applied only when present. -/
def rankingFilter (grupo_id : Option Int) (r : RankingJoinRow) : Bool :=
  match grupo_id with
  | some g => r.id_grupo == g
  | none => true

/-- The group-filtered join rows in the order the ORDER BY yields them. -/
def ranking_sorted_rows (rows : List RankingJoinRow)
    (grupo_id : Option Int) : List RankingJoinRow :=
  List.insertionSort rankLe (rows.filter (rankingFilter grupo_id))

/-- The output rows the service builds when the query runs: sort by correct
answers descending then elapsed ascending, and number the rows from 1
(`ranking = idx + 1` over `enumerate`). -/
def ranking_rows_ranked (rows : List RankingJoinRow)
    (grupo_id : Option Int) : List RankingUsuarioOut :=
  (ranking_sorted_rows rows grupo_id).enum.map
    (fun pair =>
      { ranking := (pair.1 : Int) + 1
        cedula := pair.2.cedula
        nombre := pair.2.nombre
        grupo := pair.2.nombre_grupo
        tiempo_juego := toString pair.2.tiempo_total
        total_preguntas := pair.2.total_preguntas
        respuestas_correctas := pair.2.respuestas_correctas })

/-- Service `ranking_usuarios` (src/app/services/informes.py lines 27 to
68). When the attempt-number filter is supplied, building the query
evaluates `Participacion.numero_intento`, an attribute the mapped class
does not declare, so the call raises `AttributeError` before any row is
returned; otherwise the query runs with the optional group filter and the
rows are ranked by position. -/
def ranking_usuarios (rows : List RankingJoinRow)
    (grupo_id numero_intento : Option Int) :
    Except ServiceError (List RankingUsuarioOut) :=
  match numero_intento with
  | some _ => .error (.exn "AttributeError: numero_intento")
  | none => .ok (ranking_rows_ranked rows grupo_id)

/-- Dense ranking, from the spec's words ("assign dense rank starting at
1"): the first row ranks 1, and each following row keeps the previous
rank when it ties with its predecessor on both sort keys, else takes the
next rank. Written from the spec for comparison with the source's
`ranking = idx + 1`. -/
def denseRanksSpec : List RankingJoinRow → List Int
  | [] => []
  | r :: rest => 1 :: denseRanksAux r 1 rest
where
  denseRanksAux (prev : RankingJoinRow) (rank : Int) : List RankingJoinRow → List Int
    | [] => []
    | r :: rest =>
      if r.respuestas_correctas = prev.respuestas_correctas ∧
          r.tiempo_total = prev.tiempo_total then
        rank :: denseRanksAux r rank rest
      else
        (rank + 1) :: denseRanksAux r (rank + 1) rest

/-- The payload of a verified session token as `verificar_token` returns it
to the finalize handler. -/
structure TokenPayload where
  cedula : String
  nombre : String
  id_grupo : Int
  id_evento : Int
  id_participacion : Int
deriving DecidableEq, Repr

/-- The signed token issued by `crear_token`, modelled as the encoded
payload. -/
def crear_token (p : TokenPayload) : String :=
  p.cedula ++ "|" ++ p.nombre ++ "|" ++ toString p.id_grupo ++ "|"
    ++ toString p.id_evento ++ "|" ++ toString p.id_participacion

/-- The validated join request `GestionarParticipacionRequest`
(src/app/schemas/participacion.py lines 12 to 42). -/
structure GestionarParticipacionRequest where
  nombre : String
  cedula : String
  grupo_id : Int
  evento_id : Int
deriving DecidableEq, Repr

/-- The response model `ParticipacionResponse`
(src/app/schemas/participacion.py lines 97 to 123): `finished_at` and
`tiempo_total` have `None` defaults, every other field is required. -/
structure ParticipacionResponse where
  token : String
  action : String
  id_participacion : Int
  numero_intento : Int
  respuestas : List RespuestaDict
  started_at : Int
  finished_at : Option Int
  tiempo_total : Option String
  remaining : String
deriving DecidableEq, Repr

/-- The keyword arguments of a `ParticipacionResponse(...)` construction:
`none` marks a keyword the caller did not supply. -/
structure ParticipacionResponseKwargs where
  token : Option String := none
  action : Option String := none
  id_participacion : Option Int := none
  numero_intento : Option Int := none
  respuestas : Option (List RespuestaDict) := none
  started_at : Option Int := none
  finished_at : Option (Option Int) := none
  tiempo_total : Option (Option String) := none
  remaining : Option String := none
deriving DecidableEq, Repr

/-- Pydantic's constructor validation of `ParticipacionResponse`: every
field without a default must be supplied, the two defaulted fields fall
back to `None`; a missing required field raises a validation error. -/
def mk_ParticipacionResponse (k : ParticipacionResponseKwargs) :
    Except String ParticipacionResponse :=
  match k.token, k.action, k.id_participacion, k.numero_intento,
      k.respuestas, k.started_at, k.remaining with
  | some tok, some act, some idp, some num, some resps, some st, some rem =>
    .ok { token := tok, action := act, id_participacion := idp,
          numero_intento := num, respuestas := resps, started_at := st,
          finished_at := k.finished_at.getD none,
          tiempo_total := k.tiempo_total.getD none,
          remaining := rem }
  | _, _, _, _, _, _, _ => .error "ValidationError: field required"

/-- The keyword arguments the join handler passes to
`ParticipacionResponse(...)` (src/app/api/routers/participaciones.py lines
101 to 108): token, action, id_participacion, respuestas, started_at and
tiempo_total, and nothing else. -/
def gestionar_response_kwargs (token : String) (r : JoinResult) :
    ParticipacionResponseKwargs :=
  { token := some token
    action := some r.action
    id_participacion := some r.id_participacion
    respuestas := some r.respuestas
    started_at := some r.started_at
    tiempo_total := some r.tiempo_total }

/-- The try-block body of the join handler `gestionar`
(src/app/api/routers/participaciones.py lines 65 to 108): group lookup
(404), window check (403), the service call, token creation and response
construction; any raise propagates as a `ServiceError`. -/
def gestionar_body (db : DBState) (data : GestionarParticipacionRequest)
    (now : Int) : DBState × Except ServiceError ParticipacionResponse :=
  match get_grupo db data.grupo_id with
  | none => (db, .error (.http 404 "Grupo no encontrado"))
  | some grupo =>
    if grupo.fecha_inicio ≤ now ∧ now ≤ grupo.fecha_cierre then
      match gestionar_participacion db data.nombre data.cedula data.grupo_id now with
      | (db1, .error e) => (db1, .error e)
      | (db1, .ok result) =>
        let token := crear_token
          { cedula := data.cedula, nombre := data.nombre,
            id_grupo := data.grupo_id, id_evento := data.evento_id,
            id_participacion := result.id_participacion }
        match mk_ParticipacionResponse (gestionar_response_kwargs token result) with
        | .error msg => (db1, .error (.exn msg))
        | .ok resp => (db1, .ok resp)
    else
      (db, .error (.http 403 "Este grupo ya está cerrado o aún no ha iniciado"))

/-- The join endpoint: the handler's catch-all clause turns every exception
raised inside the try block, `HTTPException` included, into a 500 whose
detail is `str(e)`. -/
def gestionar_endpoint (db : DBState) (data : GestionarParticipacionRequest)
    (now : Int) : DBState × Except HTTPException ParticipacionResponse :=
  match gestionar_body db data now with
  | (db1, .ok resp) => (db1, .ok resp)
  | (db1, .error e) => (db1, .error { statusCode := 500, detail := pyStr e })

/-- The finalize endpoint `finalizar`
(src/app/api/routers/participaciones.py lines 115 to 154): request
validation runs first (a 422 before any transaction); the token versus
request attempt-id check runs before the try block and surfaces as its own
403; inside the try block, any exception from the service, `HTTPException`
included, becomes a 500. -/
def finalizar_endpoint (db : DBState) (payload : TokenPayload)
    (raw_id : Int) (raw_respuestas : List RespuestaUsuario) (raw_tiempo : String)
    (now : Int) : DBState × Except HTTPException (String × Int) :=
  match validate_FinalizarRequest raw_id raw_respuestas raw_tiempo with
  | .error msg => (db, .error { statusCode := 422, detail := msg })
  | .ok data =>
    if payload.id_participacion ≠ data.id_participacion then
      (db, .error { statusCode := 403,
                    detail := "No autorizado para actualizar esta participación" })
    else
      match finalizar_participacion db data.id_participacion
          (data.respuestas.map RespuestaUsuario.model_dump) data.tiempo now with
      | (db1, .ok r) => (db1, .ok r)
      | (db1, .error e) =>
        (db1, .error { statusCode := 500,
                       detail := "Error al finalizar la participación: " ++ pyStr e })

/-- Two digit characters of a number below 100, most significant first. -/
def dosDigitos (n : Nat) : List Char :=
  [Char.ofNat (48 + n / 10), Char.ofNat (48 + n % 10)]

/-- A well-formed elapsed string in the fixed two-digit HH:MM:SS format. -/
def fmtHHMMSS (h m s : Nat) : String :=
  String.mk (dosDigitos h ++ [':'] ++ dosDigitos m ++ [':'] ++ dosDigitos s)

/-- Concrete data: a finished first attempt of user 1 in group 1, finished
at second 1000 after 120 seconds of play. -/
def intentoTerminado : ParticipacionRow :=
  { id_participacion := 1, id_usuario := 1, id_grupo := 1, numero_intento := 1,
    respuestas_usuario := [],
    estado := .finalizado, started_at := 500, finished_at := some 1000,
    tiempo_total := some 120 }

/-- Concrete data: a second pending attempt of the same user and group. -/
def intentoSegundo : ParticipacionRow :=
  { id_participacion := 2, id_usuario := 1, id_grupo := 1, numero_intento := 2,
    respuestas_usuario := [], estado := .pendiente,
    started_at := 1400, finished_at := none, tiempo_total := none }

/-- Concrete data: the empty store. -/
def dbVacia : DBState := { grupos := [], usuarios := [], participaciones := [] }

/-- Concrete data: a group open between seconds 10 and 20, three attempts,
five-minute cooldown. -/
def grupoEjemplo : Grupo :=
  { id_grupo := 1, id_evento := 1, nombre_grupo := "Grupo A",
    fecha_inicio := 10, fecha_cierre := 20, max_intentos := 3, cooldown := 300 }

/-- Concrete data: a store holding only `grupoEjemplo`. -/
def dbSoloGrupo : DBState :=
  { grupos := [grupoEjemplo], usuarios := [], participaciones := [] }

/-- Concrete data: a store with the group, one user and the finished
attempt. -/
def dbIntentoTerminado : DBState :=
  { grupos := [grupoEjemplo],
    usuarios := [{ id_usuario := 1, cedula := "1234", nombre := "Ana" }],
    participaciones := [intentoTerminado] }

/-- Concrete data: a store with a pending second attempt. -/
def dbIntentoPendiente : DBState :=
  { grupos := [grupoEjemplo],
    usuarios := [{ id_usuario := 1, cedula := "1234", nombre := "Ana" }],
    participaciones := [intentoSegundo] }

/-- Concrete data: one single-choice and one open answer dict. -/
def respuestasMixtas : List RespuestaDict :=
  [{ id_pregunta := 1, respuesta_seleccionada := some 2 },
   { id_pregunta := 2, tipo_pregunta := some "abierta",
     respuesta_abierta := some "texto" }]

/-- Concrete data: a session token payload bound to attempt 1. -/
def payloadEjemplo : TokenPayload :=
  { cedula := "1234", nombre := "Ana", id_grupo := 1, id_evento := 1,
    id_participacion := 1 }

/-- Concrete data: a token payload bound to attempt 2, mismatching
request id 1. -/
def payloadIntento2 : TokenPayload :=
  { cedula := "1234", nombre := "Ana", id_grupo := 1, id_evento := 1,
    id_participacion := 2 }

/-- Concrete data: a join request for group 1 of event 1. -/
def joinEjemplo : GestionarParticipacionRequest :=
  { nombre := "Ana", cedula := "1234", grupo_id := 1, evento_id := 1 }

/-- Concrete data: one validated single-choice answer. -/
def respuestaEjemplo : RespuestaUsuario :=
  { id_pregunta := 1, respuesta_seleccionada := 2 }

/-- Concrete data: a ranking join row with 9 correct answers in 165
seconds. -/
def filaLenta : RankingJoinRow :=
  { cedula := "111", nombre := "Ana", nombre_grupo := "Grupo A",
    tiempo_total := 165, total_preguntas := 10, respuestas_correctas := 9,
    id_grupo := 1 }

/-- Concrete data: a ranking join row with 9 correct answers in 120
seconds. -/
def filaRapida : RankingJoinRow :=
  { cedula := "222", nombre := "Eva", nombre_grupo := "Grupo A",
    tiempo_total := 120, total_preguntas := 10, respuestas_correctas := 9,
    id_grupo := 1 }

/-! Theorems. -/

/-- C1: for a join whose latest attempt in the group is finished with
`attempt_number < max_attempts`, the engine starts a new pending attempt
numbered one higher and started now when the cooldown has elapsed
(`now ≥ finished_at + cooldown`), and otherwise creates nothing, answers
"wait", and reports `remaining_cooldown = (finished_at + cooldown) − now`. -/
theorem C1_cooldown_decision (a : ParticipacionRow)
    (uid gid maxIntentos cooldown now freshId f : Int)
    (hfin : a.estado = .finalizado)
    (hfa : a.finished_at = some f)
    (hlt : a.numero_intento < maxIntentos) :
    (f + cooldown ≤ now →
      resolve_or_start_attempt (some a) uid gid maxIntentos cooldown now freshId =
        { action := "start",
          attempt := some (newAttempt freshId uid gid (a.numero_intento + 1) now),
          createdNew := true, remaining := 0 }) ∧
    (now < f + cooldown →
      resolve_or_start_attempt (some a) uid gid maxIntentos cooldown now freshId =
        { action := "wait", attempt := some a, createdNew := false,
          remaining := f + cooldown - now }) := by
  constructor
  · intro h
    simp [resolve_or_start_attempt, hfin, hfa, hlt, h]
  · intro h
    have hn : ¬ (f + cooldown ≤ now) := by omega
    simp [resolve_or_start_attempt, hfin, hfa, hlt, hn]

/-- Witness for C1: with `max_attempts = 3` and a five-minute cooldown
(300 s) after a first attempt finished at second 1000, joining at second
1060 waits with 240 s remaining, and joining at second 1300 starts attempt
number 2. -/
theorem C1_cooldown_decision_witness :
    resolve_or_start_attempt (some intentoTerminado) 1 1 3 300 1060 2 =
      { action := "wait", attempt := some intentoTerminado, createdNew := false,
        remaining := 240 } ∧
    resolve_or_start_attempt (some intentoTerminado) 1 1 3 300 1300 2 =
      { action := "start", attempt := some (newAttempt 2 1 1 2 1300),
        createdNew := true, remaining := 0 } := by
  refine ⟨?_, ?_⟩
  · exact (C1_cooldown_decision intentoTerminado 1 1 3 300 1060 2 1000
      rfl rfl (by decide)).2 (by decide)
  · exact (C1_cooldown_decision intentoTerminado 1 1 3 300 1300 2 1000
      rfl rfl (by decide)).1 (by decide)

/-- C2: evaluation of the declared schema constraint at the failing input.
The unique constraint the source declares (`uq_usuario_grupo`, on
`id_usuario` and `id_grupo` only) rejects the two-attempt state that a
second join after a finished first attempt would create, while the
constraint the claim states (on user, group and attempt number together)
accepts it. -/
theorem C2_constraint_rejects_second_attempt :
    uqUsuarioGrupo [intentoTerminado, intentoSegundo] = false ∧
    uqUsuarioGrupoIntentoSpec [intentoTerminado, intentoSegundo] = true := by
  constructor <;> rfl

/-- C3: `finalizar_participacion` fails with the 404 not-found error when
no attempt with the given id exists and with the 400 already-finalized
rejection when the attempt is finished, so a second finalize call on the
same attempt is rejected, never accepted; on either error the returned
store is the unchanged input store. -/
theorem C3_finalizar_rechazos (db : DBState) (idp : Int)
    (resps : List RespuestaDict) (tiempo : String) (now : Int) :
    (db.participaciones.find? (fun p => p.id_participacion == idp) = none →
      finalizar_participacion db idp resps tiempo now =
        (db, .error (.http 404 "Participación no encontrada."))) ∧
    (∀ p, db.participaciones.find? (fun p => p.id_participacion == idp) = some p →
      p.estado = .finalizado →
      finalizar_participacion db idp resps tiempo now =
        (db, .error (.http 400 "La participación ya está finalizada."))) := by
  constructor
  · intro h
    simp [finalizar_participacion, h]
  · intro p hp hfin
    simp [finalizar_participacion, hp, hfin]

/-- Witness for C3: finalizing attempt 1 in the empty store is a 404, and
finalizing the already finished attempt 1 again is the 400 rejection; both
leave the store as it was. -/
theorem C3_finalizar_rechazos_witness :
    finalizar_participacion dbVacia 1 [] "00:02:00" 1500 =
      (dbVacia, .error (.http 404 "Participación no encontrada.")) ∧
    finalizar_participacion dbIntentoTerminado 1 [] "00:02:00" 1500 =
      (dbIntentoTerminado, .error (.http 400 "La participación ya está finalizada.")) := by
  refine ⟨?_, ?_⟩
  · exact (C3_finalizar_rechazos dbVacia 1 [] "00:02:00" 1500).1 rfl
  · exact (C3_finalizar_rechazos dbIntentoTerminado 1 [] "00:02:00" 1500).2
      intentoTerminado rfl rfl

/-- C4: the join service fails with the 404 not-found error when the group
does not exist and with the 403 forbidden error when now is outside the
group's open window, and on both error paths the returned store is the
unchanged input store: no user upsert and no attempt creation happens. -/
theorem C4_gestionar_guardas (db : DBState) (nombre cedula : String)
    (gid now : Int) :
    (get_grupo_by_id db gid = none →
      gestionar_participacion db nombre cedula gid now =
        (db, .error (.http 404 "Grupo no encontrado"))) ∧
    (∀ g, get_grupo_by_id db gid = some g →
      ¬ (g.fecha_inicio ≤ now ∧ now ≤ g.fecha_cierre) →
      gestionar_participacion db nombre cedula gid now =
        (db, .error (.http 403 "El grupo está cerrado o aún no ha iniciado"))) := by
  constructor
  · intro h
    simp [gestionar_participacion, h]
  · intro g hg hw
    simp [gestionar_participacion, hg, hw]

/-- Witness for C4: joining group 1 in the empty store is the 404, and
joining the example group at second 30, after its window [10, 20] closed,
is the 403; both leave the store untouched. -/
theorem C4_gestionar_guardas_witness :
    gestionar_participacion dbVacia "Ana" "1234" 1 15 =
      (dbVacia, .error (.http 404 "Grupo no encontrado")) ∧
    gestionar_participacion dbSoloGrupo "Ana" "1234" 1 30 =
      (dbSoloGrupo, .error (.http 403 "El grupo está cerrado o aún no ha iniciado")) := by
  refine ⟨?_, ?_⟩
  · exact (C4_gestionar_guardas dbVacia "Ana" "1234" 1 15).1 rfl
  · exact (C4_gestionar_guardas dbSoloGrupo "Ana" "1234" 1 30).2
      grupoEjemplo rfl (by decide)

/-- The partition loop computes the filter of the non-open answers and the
projection of the open ones, for any starting accumulators. -/
theorem separarPaso_foldl (resps : List RespuestaDict)
    (acc1 : List RespuestaDict) (acc2 : List RespuestaAbiertaDict) :
    resps.foldl separarPaso (acc1, acc2) =
      (acc1 ++ resps.filter (fun r => !(r.tipo_pregunta == some "abierta")),
       acc2 ++ (resps.filter (fun r => r.tipo_pregunta == some "abierta")).map
         (fun r => { id_pregunta := r.id_pregunta,
                     respuesta_abierta := r.respuesta_abierta })) := by
  induction resps generalizing acc1 acc2 with
  | nil => simp
  | cons r rest ih =>
    by_cases h : r.tipo_pregunta == some "abierta"
    · simp [separarPaso, h, ih]
    · simp [separarPaso, h, ih]

/-- C5: evaluation at the finalize storage path. The update statement the
service builds does partition the submitted answers by question kind: the
open-text answers, projected to (question id, free text), go to the
`respuestas_abiertas` value, a field distinct from `respuestas_usuario`,
which receives exactly the non-open (single-choice) answers. But the
mapped class declares no `respuestas_abiertas` column, so executing the
statement raises the unconsumed-column error: every finalize call that
passes the guards fails, nothing is stored, and the store is returned
unchanged. -/
theorem C5_particion_respuestas (db : DBState) (idp : Int)
    (resps : List RespuestaDict) (tiempo : String) (now : Int)
    (p : ParticipacionRow) (d : Int)
    (hp : db.participaciones.find? (fun q => q.id_participacion == idp) = some p)
    (hpend : ¬ p.estado = .finalizado)
    (hd : parse_tiempo tiempo = some d) :
    (finalizar_update_values resps d now).respuestas_usuario =
      resps.filter (fun r => !(r.tipo_pregunta == some "abierta")) ∧
    (finalizar_update_values resps d now).respuestas_abiertas =
      (resps.filter (fun r => r.tipo_pregunta == some "abierta")).map
        (fun r => { id_pregunta := r.id_pregunta,
                    respuesta_abierta := r.respuesta_abierta }) ∧
    finalizar_participacion db idp resps tiempo now =
      (db, .error (.exn "Unconsumed column names: respuestas_abiertas")) := by
  have hsep : separar_respuestas resps =
      (resps.filter (fun r => !(r.tipo_pregunta == some "abierta")),
       (resps.filter (fun r => r.tipo_pregunta == some "abierta")).map
         (fun r => { id_pregunta := r.id_pregunta,
                     respuesta_abierta := r.respuesta_abierta })) := by
    have h := separarPaso_foldl resps [] []
    simpa [separar_respuestas] using h
  refine ⟨?_, ?_, ?_⟩
  · simp [finalizar_update_values, hsep]
  · simp [finalizar_update_values, hsep]
  · simp [finalizar_participacion, hp, hpend, hd]

/-- Witness for C5: finalizing the pending attempt 2 with one single-choice
and one open answer builds update values holding the single-choice answer
in `respuestas_usuario` and the projected open answer in
`respuestas_abiertas`, and the call fails with the unconsumed-column error,
leaving the store untouched. -/
theorem C5_particion_respuestas_witness :
    (finalizar_update_values respuestasMixtas 123 1500).respuestas_usuario =
      [{ id_pregunta := 1, respuesta_seleccionada := some 2 }] ∧
    (finalizar_update_values respuestasMixtas 123 1500).respuestas_abiertas =
      [{ id_pregunta := 2, respuesta_abierta := some "texto" }] ∧
    finalizar_participacion dbIntentoPendiente 2 respuestasMixtas "00:02:03" 1500 =
      (dbIntentoPendiente,
        .error (.exn "Unconsumed column names: respuestas_abiertas")) := by
  have h := C5_particion_respuestas dbIntentoPendiente 2 respuestasMixtas
    "00:02:03" 1500 intentoSegundo 123 rfl (by decide) rfl
  exact ⟨h.1.trans (by decide), h.2.1.trans (by decide), h.2.2⟩

/-- C6 counterexample: two join rows tying on both sort keys (equal correct
count and equal elapsed time) receive rankings 1 and 2 from the code's
`ranking = idx + 1`, while the dense rank the claim states gives both rank
1. -/
theorem C6_ranking_counterexample :
    (ranking_rows_ranked [filaRapida, { filaRapida with cedula := "333" }] none).map
      (fun o => o.ranking) = [1, 2] ∧
    denseRanksSpec
      (ranking_sorted_rows [filaRapida, { filaRapida with cedula := "333" }] none) =
      [1, 1] ∧
    ([1, 2] : List Int) ≠ [1, 1] := by
  refine ⟨by decide, by decide, by decide⟩

/-- C6 as amended: with no attempt-number filter, the ranking query returns
the group-filtered joined rows sorted by correct count descending then
elapsed ascending, assigning as ranking the 1-based position in that order
(which matches dense rank only in the absence of full ties); in particular,
of two rows with equal correct counts the one with the smaller elapsed time
receives ranking 1. Supplying an attempt-number filter makes the query
construction evaluate the undeclared attribute `numero_intento` of the
mapped class, so the call raises instead of returning rows. -/
theorem C6_ranking_orden (rows : List RankingJoinRow) (g : Option Int) (n : Int) :
    List.Sorted rankLe (ranking_sorted_rows rows g) ∧
    (∀ i (h : i < (ranking_rows_ranked rows g).length),
      ((ranking_rows_ranked rows g)[i]).ranking = (i : Int) + 1) ∧
    ranking_usuarios rows g none = .ok (ranking_rows_ranked rows g) ∧
    ranking_usuarios rows g (some n) =
      .error (.exn "AttributeError: numero_intento") ∧
    (∀ a b : RankingJoinRow, a.respuestas_correctas = b.respuestas_correctas →
      b.tiempo_total < a.tiempo_total →
      (ranking_rows_ranked [a, b] none).map (fun o => (o.cedula, o.ranking)) =
        [(b.cedula, 1), (a.cedula, 2)]) := by
  refine ⟨List.sorted_insertionSort rankLe _, ?_, rfl, rfl, ?_⟩
  · intro i h
    simp [ranking_rows_ranked]
  · intro a b h1 h2
    have hn : ¬ rankLe a b := by
      rintro (h | ⟨-, h⟩) <;> omega
    simp [ranking_rows_ranked, ranking_sorted_rows, rankingFilter,
      List.insertionSort, List.orderedInsert, hn, List.enum, List.enumFrom]

/-- Witness for C6: with the spec's two attempts, 9 correct in 165 seconds
and 9 correct in 120 seconds, the 120-second row is returned first with
ranking 1 and the 165-second row second with ranking 2; supplying the
attempt-number filter 1 errors with the AttributeError. -/
theorem C6_ranking_orden_witness :
    (ranking_rows_ranked [filaLenta, filaRapida] none).map
      (fun o => (o.cedula, o.ranking)) =
      [(filaRapida.cedula, 1), (filaLenta.cedula, 2)] ∧
    ((ranking_rows_ranked [filaLenta, filaRapida] none)[0]).ranking = 1 ∧
    ranking_usuarios [filaLenta, filaRapida] none (some 1) =
      .error (.exn "AttributeError: numero_intento") := by
  have h := C6_ranking_orden [filaLenta, filaRapida] none 1
  refine ⟨h.2.2.2.2 filaLenta filaRapida (by decide) (by decide), ?_, h.2.2.2.1⟩
  exact h.2.1 0 (by decide)

/-- C7 counterexample: no create-group request can yield a group with
`max_intentos` other than the default 1 or `cooldown` other than the
default 300 seconds, because the request schema carries neither field; so
group creation does not carry max_attempts and cooldown as the claim
states (the spec's own cooldown scenario needs a created group with
max_attempts 3). -/
theorem C7_grupo_counterexample :
    (¬ ∃ (g : GrupoCreate) (freshId : Int), (create_grupo g freshId).max_intentos ≠ 1) ∧
    (¬ ∃ (g : GrupoCreate) (freshId : Int), (create_grupo g freshId).cooldown ≠ 300) := by
  constructor <;> rintro ⟨g, i, h⟩ <;> exact h rfl

/-- C7 as amended: the declared bounds hold and are enforced: creation
validation rejects `close_time ≤ start_time`; a created group satisfies
the check constraints (with the defaulted `max_intentos = 1` and
`cooldown = 300`, since the creation request carries only event, name and
the two dates); update rejects a supplied date pair with
`close_time ≤ start_time`; and any group an update returns satisfies the
check constraints. -/
theorem C7_grupo_invariantes (ie : Int) (nom : String) (fi fc freshId : Int)
    (db : DBState) (gid : Int) (onom : Option String) (ofi ofc : Option Int) :
    (fc ≤ fi → (validate_GrupoCreate ie nom fi fc).toOption = none) ∧
    (∀ g, validate_GrupoCreate ie nom fi fc = .ok g →
      grupoCheckConstraints (create_grupo g freshId)) ∧
    (∀ gr fi2 fc2, get_grupo db gid = some gr → fc2 ≤ fi2 →
      actualizar_grupo db gid onom (some fi2) (some fc2) =
        .error { statusCode := 400,
                 detail := "La fecha de cierre debe ser posterior a la fecha de inicio" }) ∧
    (∀ g2, actualizar_grupo db gid onom ofi ofc = .ok g2 →
      grupoCheckConstraints g2) := by
  refine ⟨?_, ?_, ?_, ?_⟩
  · intro h
    unfold validate_GrupoCreate
    split_ifs <;> simp_all [Except.toOption]
  · intro g hg
    unfold validate_GrupoCreate at hg
    split_ifs at hg with h1 h2 h3 h4
    cases hg
    simp only [grupoCheckConstraints, create_grupo]
    refine ⟨by omega, by norm_num, by norm_num⟩
  · intro gr fi2 fc2 hgr hle
    unfold actualizar_grupo
    rw [hgr]
    simp [hle]
  · intro g2 hg2
    unfold actualizar_grupo at hg2
    have commit : ∀ g3, actualizar_grupo.commitGrupo g3 = .ok g2 →
        grupoCheckConstraints g2 := by
      intro g3 h3
      unfold actualizar_grupo.commitGrupo at h3
      split_ifs at h3 with hc
      cases h3
      exact hc
    have aplicar : ∀ gr n f1 f2,
        actualizar_grupo.actualizarAplicar gr n f1 f2 = .ok g2 →
        grupoCheckConstraints g2 := by
      intro gr nom2 f1 f2 h3
      unfold actualizar_grupo.actualizarAplicar at h3
      rcases nom2 with _ | n
      · exact commit _ h3
      · dsimp only at h3
        split_ifs at h3 <;> exact commit _ h3
    split at hg2
    · cases hg2
    · split at hg2
      · split at hg2
        · cases hg2
        · exact aplicar _ _ _ _ hg2
      · exact aplicar _ _ _ _ hg2

/-- Witness for C7: a create payload with a closing date not after the
start is rejected; the validated payload (10, 20) yields a group meeting
the constraints; updating the stored example group to the date pair
(30, 25) is rejected with a 400; and updating it to (30, 40) returns a
group meeting the constraints. -/
theorem C7_grupo_invariantes_witness :
    (validate_GrupoCreate 1 "Grupo A" 20 10).toOption = none ∧
    grupoCheckConstraints
      (create_grupo { id_evento := 1, nombre_grupo := "Grupo A",
                      fecha_inicio := 10, fecha_cierre := 20 } 1) ∧
    actualizar_grupo dbSoloGrupo 1 none (some 30) (some 25) =
      .error { statusCode := 400,
               detail := "La fecha de cierre debe ser posterior a la fecha de inicio" } ∧
    grupoCheckConstraints { grupoEjemplo with fecha_inicio := 30, fecha_cierre := 40 } := by
  refine ⟨?_, ?_, ?_, ?_⟩
  · exact (C7_grupo_invariantes 1 "Grupo A" 20 10 1 dbVacia 1 none none none).1
      (by decide)
  · exact (C7_grupo_invariantes 1 "Grupo A" 10 20 1 dbVacia 1 none none none).2.1
      { id_evento := 1, nombre_grupo := "Grupo A", fecha_inicio := 10, fecha_cierre := 20 }
      (by rfl)
  · exact (C7_grupo_invariantes 1 "Grupo A" 10 20 1 dbSoloGrupo 1 none none none).2.2.1
      grupoEjemplo 30 25 rfl (by decide)
  · exact (C7_grupo_invariantes 1 "Grupo A" 10 20 1 dbSoloGrupo 1 none
      (some 30) (some 40)).2.2.2
      { grupoEjemplo with fecha_inicio := 30, fecha_cierre := 40 } (by rfl)

/-- A digit character is recognised by `Char.isDigit`. -/
theorem dchar_isDigit (d : Nat) (h : d < 10) : (Char.ofNat (48 + d)).isDigit = true := by
  interval_cases d <;> decide

/-- A digit character is not the colon separator. -/
theorem dchar_ne_colon (d : Nat) (h : d < 10) : ¬ (Char.ofNat (48 + d) = ':') := by
  interval_cases d <;> decide

/-- The code point of a digit character. -/
theorem dchar_toNat (d : Nat) (h : d < 10) : (Char.ofNat (48 + d)).toNat = 48 + d := by
  interval_cases d <;> decide

/-- C8: the elapsed field parses from the fixed two-digit HH:MM:SS format
into the duration of that many hours, minutes and seconds (the string
matches the schema pattern and `parse_tiempo` yields
3600 h + 60 m + s seconds), and a malformed elapsed string fails the
request validation: the finalize endpoint rejects it with a 422 and the
returned store is the unchanged input store, so no transaction begins. -/
theorem C8_parse_tiempo (h m s : Nat) (hh : h < 100) (hm : m < 100) (hs : s < 100) :
    tiempo_pattern (fmtHHMMSS h m s) = true ∧
    parse_tiempo (fmtHHMMSS h m s) = some ((3600 * h + 60 * m + s : Nat) : Int) ∧
    ∀ (db : DBState) (payload : TokenPayload) (rid : Int)
      (resps : List RespuestaUsuario) (t : String) (now : Int),
      tiempo_pattern t = false →
      ∃ msg, finalizar_endpoint db payload rid resps t now =
        (db, .error { statusCode := 422, detail := msg }) := by
  have d1 : h / 10 < 10 := by omega
  have d2 : h % 10 < 10 := by omega
  have d3 : m / 10 < 10 := by omega
  have d4 : m % 10 < 10 := by omega
  have d5 : s / 10 < 10 := by omega
  have d6 : s % 10 < 10 := by omega
  refine ⟨?_, ?_, ?_⟩
  · simp [tiempo_pattern, fmtHHMMSS, dosDigitos,
      dchar_isDigit _ d1, dchar_isDigit _ d2, dchar_isDigit _ d3,
      dchar_isDigit _ d4, dchar_isDigit _ d5, dchar_isDigit _ d6]
  · simp only [parse_tiempo, fmtHHMMSS, dosDigitos, List.cons_append, List.nil_append]
    simp only [pySplitChar, if_neg (dchar_ne_colon _ d1), if_neg (dchar_ne_colon _ d2),
      if_neg (dchar_ne_colon _ d3), if_neg (dchar_ne_colon _ d4),
      if_neg (dchar_ne_colon _ d5), if_neg (dchar_ne_colon _ d6), if_pos rfl,
      List.reverse_cons, List.reverse_nil, List.nil_append, List.cons_append]
    simp only [List.map_cons, List.map_nil, parseIntStr]
    simp [dchar_isDigit _ d1, dchar_isDigit _ d2, dchar_isDigit _ d3,
      dchar_isDigit _ d4, dchar_isDigit _ d5, dchar_isDigit _ d6,
      dchar_toNat _ d1, dchar_toNat _ d2, dchar_toNat _ d3,
      dchar_toNat _ d4, dchar_toNat _ d5, dchar_toNat _ d6]
    omega
  · intro db payload rid resps t now hfalse
    have hval : ∃ msg, validate_FinalizarRequest rid resps t = .error msg := by
      unfold validate_FinalizarRequest
      split_ifs with c1 c2 c3 c4 <;>
        first
          | exact ⟨_, rfl⟩
          | exact absurd c3 (by simp [hfalse])
    rcases hval with ⟨msg, hmsg⟩
    refine ⟨msg, ?_⟩
    simp [finalizar_endpoint, hmsg]

/-- Witness for C8: "01:02:03" passes the pattern and parses to 3723
seconds, while the malformed "1:2:3" is rejected by the endpoint with a
422 and the store is untouched. -/
theorem C8_parse_tiempo_witness :
    tiempo_pattern (fmtHHMMSS 1 2 3) = true ∧
    parse_tiempo (fmtHHMMSS 1 2 3) = some 3723 ∧
    ∃ msg, finalizar_endpoint dbVacia payloadEjemplo 1 [respuestaEjemplo] "1:2:3" 0 =
      (dbVacia, .error { statusCode := 422, detail := msg }) := by
  have h := C8_parse_tiempo 1 2 3 (by decide) (by decide) (by decide)
  exact ⟨h.1, h.2.1, h.2.2 dbVacia payloadEjemplo 1 [respuestaEjemplo] "1:2:3" 0 (by decide)⟩

/-- C9: in the join handler every error raised inside the try block,
including the service layer's 404 (group absent) and 403 (group closed)
`HTTPException`s, is caught by the catch-all clause and surfaced as a 500
whose detail is the printed original error; in the finalize handler the
token versus attempt-id mismatch check runs before the try block and
surfaces with its own 403, while the service's 404 (attempt absent) and
400 (already finalized) errors are surfaced as 500s. -/
theorem C9_catch_all_500 (db : DBState) (data : GestionarParticipacionRequest)
    (payload : TokenPayload) (rid : Int) (resps : List RespuestaUsuario)
    (tiempo : String) (now : Int) :
    (get_grupo db data.grupo_id = none →
      (gestionar_endpoint db data now).2 =
        .error { statusCode := 500, detail := "404: Grupo no encontrado" }) ∧
    (∀ g, get_grupo db data.grupo_id = some g →
      ¬ (g.fecha_inicio ≤ now ∧ now ≤ g.fecha_cierre) →
      (gestionar_endpoint db data now).2 =
        .error { statusCode := 500,
                 detail := "403: Este grupo ya está cerrado o aún no ha iniciado" }) ∧
    (∀ vreq, validate_FinalizarRequest rid resps tiempo = .ok vreq →
      payload.id_participacion ≠ vreq.id_participacion →
      finalizar_endpoint db payload rid resps tiempo now =
        (db, .error { statusCode := 403,
                      detail := "No autorizado para actualizar esta participación" })) ∧
    (∀ vreq, validate_FinalizarRequest rid resps tiempo = .ok vreq →
      payload.id_participacion = vreq.id_participacion →
      db.participaciones.find?
        (fun p => p.id_participacion == vreq.id_participacion) = none →
      (finalizar_endpoint db payload rid resps tiempo now).2 =
        .error { statusCode := 500,
                 detail :=
                   "Error al finalizar la participación: 404: Participación no encontrada." }) ∧
    (∀ vreq p, validate_FinalizarRequest rid resps tiempo = .ok vreq →
      payload.id_participacion = vreq.id_participacion →
      db.participaciones.find?
        (fun p => p.id_participacion == vreq.id_participacion) = some p →
      p.estado = .finalizado →
      (finalizar_endpoint db payload rid resps tiempo now).2 =
        .error { statusCode := 500,
                 detail :=
                   "Error al finalizar la participación: 400: La participación ya está finalizada." }) := by
  refine ⟨?_, ?_, ?_, ?_, ?_⟩
  · intro h
    simp [gestionar_endpoint, gestionar_body, h, pyStr]
    rfl
  · intro g hg hw
    simp [gestionar_endpoint, gestionar_body, hg, hw, pyStr]
    rfl
  · intro vreq hv hne
    simp [finalizar_endpoint, hv, hne]
  · intro vreq hv heq hnone
    simp [finalizar_endpoint, hv, heq, finalizar_participacion, hnone, pyStr]
    rfl
  · intro vreq p hv heq hp hfin
    simp [finalizar_endpoint, hv, heq, finalizar_participacion, hp, hfin, pyStr]
    rfl

/-- Witness for C9: the join 404 (empty store) and 403 (closed window)
both surface as 500s with the original error printed in the detail; the
finalize token mismatch surfaces as its own 403; and the finalize 404 and
400 surface as 500s. -/
theorem C9_catch_all_500_witness :
    (gestionar_endpoint dbVacia joinEjemplo 15).2 =
      .error { statusCode := 500, detail := "404: Grupo no encontrado" } ∧
    (gestionar_endpoint dbSoloGrupo joinEjemplo 30).2 =
      .error { statusCode := 500,
               detail := "403: Este grupo ya está cerrado o aún no ha iniciado" } ∧
    finalizar_endpoint dbVacia payloadIntento2 1 [respuestaEjemplo] "00:02:03" 1500 =
      (dbVacia, .error { statusCode := 403,
                         detail := "No autorizado para actualizar esta participación" }) ∧
    (finalizar_endpoint dbVacia payloadEjemplo 1 [respuestaEjemplo] "00:02:03" 1500).2 =
      .error { statusCode := 500,
               detail :=
                 "Error al finalizar la participación: 404: Participación no encontrada." } ∧
    (finalizar_endpoint dbIntentoTerminado payloadEjemplo 1 [respuestaEjemplo]
        "00:02:03" 1500).2 =
      .error { statusCode := 500,
               detail :=
                 "Error al finalizar la participación: 400: La participación ya está finalizada." } := by
  refine ⟨?_, ?_, ?_, ?_, ?_⟩
  · exact (C9_catch_all_500 dbVacia joinEjemplo payloadEjemplo 1 [] "" 15).1 rfl
  · exact (C9_catch_all_500 dbSoloGrupo joinEjemplo payloadEjemplo 1 [] "" 30).2.1
      grupoEjemplo rfl (by decide)
  · exact (C9_catch_all_500 dbVacia joinEjemplo payloadIntento2 1 [respuestaEjemplo]
      "00:02:03" 1500).2.2.1
      { id_participacion := 1, respuestas := [respuestaEjemplo], tiempo := "00:02:03" }
      (by rfl) (by decide)
  · exact (C9_catch_all_500 dbVacia joinEjemplo payloadEjemplo 1 [respuestaEjemplo]
      "00:02:03" 1500).2.2.2.1
      { id_participacion := 1, respuestas := [respuestaEjemplo], tiempo := "00:02:03" }
      (by rfl) rfl rfl
  · exact (C9_catch_all_500 dbIntentoTerminado joinEjemplo payloadEjemplo 1
      [respuestaEjemplo] "00:02:03" 1500).2.2.2.2
      { id_participacion := 1, respuestas := [respuestaEjemplo], tiempo := "00:02:03" }
      intentoTerminado (by rfl) rfl rfl rfl

/-- C10: the join handler constructs its response model without supplying
the required fields `numero_intento` and `remaining`, so the construction
always fails validation, and for every input the join endpoint returns an
error (surfaced as a 500 by the catch-all clause) instead of the declared
success response: it can never return a well-formed 200. -/
theorem C10_join_nunca_ok (db : DBState) (data : GestionarParticipacionRequest)
    (now : Int) :
    (∀ token r, (gestionar_response_kwargs token r).numero_intento = none ∧
      (gestionar_response_kwargs token r).remaining = none ∧
      mk_ParticipacionResponse (gestionar_response_kwargs token r) =
        .error "ValidationError: field required") ∧
    ∃ d, (gestionar_endpoint db data now).2 =
      .error { statusCode := 500, detail := d } := by
  constructor
  · intro token r
    exact ⟨rfl, rfl, rfl⟩
  · rcases hget : get_grupo db data.grupo_id with _ | g
    · exact ⟨pyStr (.http 404 "Grupo no encontrado"),
        by simp [gestionar_endpoint, gestionar_body, hget]⟩
    · by_cases hw : g.fecha_inicio ≤ now ∧ now ≤ g.fecha_cierre
      · rcases hserv : gestionar_participacion db data.nombre data.cedula
          data.grupo_id now with ⟨db1, res⟩
        rcases res with e | result
        · exact ⟨pyStr e,
            by simp [gestionar_endpoint, gestionar_body, hget, hw, hserv]⟩
        · exact ⟨pyStr (.exn "ValidationError: field required"),
            by simp [gestionar_endpoint, gestionar_body, hget, hw, hserv,
              mk_ParticipacionResponse, gestionar_response_kwargs]⟩
      · exact ⟨pyStr (.http 403 "Este grupo ya está cerrado o aún no ha iniciado"),
          by simp [gestionar_endpoint, gestionar_body, hget, hw]⟩

end TriviaApi
